import Mathlib

/-!
Verification development for the LapOptimizer repository.

The definitions below are a shallow embedding of the Python source:
  * `src/utils.py`   — `FastestLapWrapper` (optimization bridge and telemetry
    synthesizer), `TrackManager.load_track_data` (geometry loader) and
    `ResultManager.save_run` (result store).
Python floats are modelled as real numbers (exact arithmetic); Python
exceptions and `None` returns are modelled with `Option`; string-keyed
dictionaries are modelled as association lists.
-/

open Classical

noncomputable section

/-- Literal `1e-6` used by the source both as the curvature-denominator floor
and as the normalization epsilon. -/
def epsFloor : ℝ := 1 / 1000000

/-- Embedding of `np.gradient` for one-dimensional arrays of length at least
two: one-sided differences at the two endpoints, centered differences in the
interior (`src/utils.py` lines 160-163).  The source raises for arrays of
fewer than two samples; callers guard that case. -/
def npGradient (l : List ℝ) : List ℝ :=
  (List.range l.length).map (fun i =>
    if i = 0 then l.getD 1 0 - l.getD 0 0
    else if i = l.length - 1 then l.getD (l.length - 1) 0 - l.getD (l.length - 2) 0
    else (l.getD (i + 1) 0 - l.getD (i - 1) 0) / 2)

/-- Embedding of `np.max` on a nonempty array (the source only applies it to
the nonempty curvature array); the empty case is never reached and returns 0. -/
def npMax (l : List ℝ) : ℝ :=
  match l with
  | [] => 0
  | a :: t => t.foldl max a

/-- Cumulative sums: `cumulFrom start ds` is the list `start, start + ds[0],
start + ds[0] + ds[1], ...` — the shape of the `s` and `time` accumulation
loops of `_generate_mock_data` (`src/utils.py` lines 153-156 and 192-197). -/
def cumulFrom (start : ℝ) (ds : List ℝ) : List ℝ :=
  List.scanl (· + ·) start ds

/-- Segment lengths of the mock path: `sqrt((x[i]-x[i-1])^2 + (y[i]-y[i-1])^2)`
for `i = 1 .. n-1` (`src/utils.py` line 155). -/
def segDists (xs ys : List ℝ) : List ℝ :=
  (List.range (xs.length - 1)).map (fun i =>
    Real.sqrt ((xs.getD (i + 1) 0 - xs.getD i 0) ^ 2 + (ys.getD (i + 1) 0 - ys.getD i 0) ^ 2))

/-- Arclength list `s` of the mock generator: starts at 0 and accumulates the
segment distances (`src/utils.py` lines 153-156). -/
def mockS (xs ys : List ℝ) : List ℝ :=
  cumulFrom 0 (segDists xs ys)

/-- Denominator of the curvature formula after the clamp of `src/utils.py`
lines 167-169: `(dx^2 + dy^2)^1.5`, replaced by `1e-6` when below `1e-6`. -/
def curvatureDen (dx dy : ℝ) : ℝ :=
  if (dx ^ 2 + dy ^ 2) ^ ((3 : ℝ) / 2) < epsFloor then epsFloor
  else (dx ^ 2 + dy ^ 2) ^ ((3 : ℝ) / 2)

/-- Curvature sequence of `_generate_mock_data` (`src/utils.py` lines
160-170): `|dx*ddy - dy*ddx| / clamp((dx^2+dy^2)^1.5)` where the derivatives
are `np.gradient` applications. -/
def mockCurvature (xs ys : List ℝ) : List ℝ :=
  (List.range xs.length).map (fun i =>
    |(npGradient xs).getD i 0 * (npGradient (npGradient ys)).getD i 0 -
      (npGradient ys).getD i 0 * (npGradient (npGradient xs)).getD i 0| /
    curvatureDen ((npGradient xs).getD i 0) ((npGradient ys).getD i 0))

/-- Speed factor of `_generate_mock_data` (`src/utils.py` lines 174-176): the
SHA-256 digest of the vehicle label, as an integer, is reduced mod 100 and
mapped to `1.0 + (h - 50)/500.0`.  `hv` stands for the digest integer. -/
def speedFactor (hv : ℕ) : ℝ :=
  1 + (((hv % 100 : ℕ) : ℝ) - 50) / 500

/-- Scaled maximum speed `(300 / 3.6) * speed_factor` (`src/utils.py` line 178). -/
def maxSpeedOf (hv : ℕ) : ℝ := 300 / (36 / 10) * speedFactor hv

/-- Scaled minimum speed `(60 / 3.6) * speed_factor` (`src/utils.py` line 179). -/
def minSpeedOf (hv : ℕ) : ℝ := 60 / (36 / 10) * speedFactor hv

/-- Normalized curvature `curvature / (np.max(curvature) + 1e-6)`
(`src/utils.py` line 182). -/
def mockKNorm (xs ys : List ℝ) : List ℝ :=
  (mockCurvature xs ys).map (fun c => c / (npMax (mockCurvature xs ys) + epsFloor))

/-- Unsmoothed speed profile `max_speed - (max_speed - min_speed) * k_norm^0.3`
(`src/utils.py` line 185). -/
def mockURaw (xs ys : List ℝ) (hv : ℕ) : List ℝ :=
  (mockKNorm xs ys).map (fun k =>
    maxSpeedOf hv - (maxSpeedOf hv - minSpeedOf hv) * k ^ ((3 : ℝ) / 10))

/-- Index window of `pandas.Series.rolling(10, center=True, min_periods=1)` at
output position `i`: input rows `i-5 .. i+4` clipped to the array
(`src/utils.py` line 188; pandas centers an even window with the extra row on
the left). -/
def rollWindow (n i : ℕ) : List ℕ :=
  (List.range n).filter (fun j => decide (i - 5 ≤ j ∧ j ≤ i + 4))

/-- Centered moving average with window 10 and `min_periods=1`
(`src/utils.py` line 188). -/
def rollingMean10 (l : List ℝ) : List ℝ :=
  (List.range l.length).map (fun i =>
    ((rollWindow l.length i).map (fun j => l.getD j 0)).sum /
      ((rollWindow l.length i).length : ℝ))

/-- Smoothed speed sequence `u` of the mock generator (`src/utils.py`
lines 185-188). -/
def mockU (xs ys : List ℝ) (hv : ℕ) : List ℝ :=
  rollingMean10 (mockURaw xs ys hv)

/-- Per-step time increments `ds / avg_v` with the average speed floored at 1
(`src/utils.py` lines 192-197). -/
def timeDeltas (s u : List ℝ) (n : ℕ) : List ℝ :=
  (List.range (n - 1)).map (fun i =>
    (s.getD (i + 1) 0 - s.getD i 0) /
      (if (u.getD (i + 1) 0 + u.getD i 0) / 2 < 1 then 1
       else (u.getD (i + 1) 0 + u.getD i 0) / 2))

/-- Elapsed-time sequence of the mock generator (`src/utils.py` lines 192-197). -/
def mockTime (xs ys : List ℝ) (hv : ℕ) : List ℝ :=
  cumulFrom 0 (timeDeltas (mockS xs ys) (mockU xs ys hv) xs.length)

/-- Canonical telemetry record: the dict `{x, y, u, time, s}` returned by both
the synthesizer (`src/utils.py` lines 199-205) and the live bridge
(lines 109-115). -/
structure TelemetryRecord where
  x : List ℝ
  y : List ℝ
  u : List ℝ
  time : List ℝ
  s : List ℝ

/-- Core of `_generate_mock_data` after the reference path has been resolved
(`src/utils.py` lines 151-205); total stand-in, meaningful for paths of at
least two samples (shorter paths make the source raise in `np.gradient`). -/
def generateMockCore (xs ys : List ℝ) (hv : ℕ) : TelemetryRecord :=
  ⟨xs, ys, mockU xs ys hv, mockTime xs ys hv, mockS xs ys⟩

/-- Source form of one geometric section of a track XML file
(`TrackManager.load_track_data`, `src/utils.py` lines 239-260).  Each channel
is `none` when the child element is absent or has empty text, and otherwise
the list of comma-separated tokens; a token is `some r` when `float(...)`
parses it to `r` and `none` when it is malformed (so that `float` raises). -/
structure SectionSrc where
  x : Option (List (Option ℝ))
  y : Option (List (Option ℝ))
  z : Option (List (Option ℝ))

/-- Source form of the `data` node of a track XML file (`src/utils.py`
lines 236-274). -/
structure TrackSrc where
  centerline : Option SectionSrc
  left_boundary : Option SectionSrc
  right_boundary : Option SectionSrc
  right_measured_boundary : Option SectionSrc
  arclength : Option (List (Option ℝ))

/-- Normalized geometry dict returned by `load_track_data` (`src/utils.py`
lines 304-310); channels that the source leaves as Python `None` stay `none`. -/
structure TrackGeometry where
  cl_x : Option (List ℝ)
  cl_y : Option (List ℝ)
  cl_z : Option (List ℝ)
  left_x : Option (List ℝ)
  left_y : Option (List ℝ)
  left_z : Option (List ℝ)
  right_x : Option (List ℝ)
  right_y : Option (List ℝ)
  right_z : Option (List ℝ)
  s : Option (List ℝ)
  banking : List ℝ

/-- Sequencing of the `float(v)` results over one comma-separated channel:
all tokens must parse, a single malformed token fails the whole channel. -/
def seqToks : List (Option ℝ) → Option (List ℝ)
  | [] => some []
  | none :: _ => none
  | some v :: ts => (seqToks ts).map (fun l => v :: l)

/-- Embedding of `parse_csv_node` (`src/utils.py` lines 239-243).  Outer
`none` models the `ValueError` that `float` raises on a malformed token (and
which aborts the whole load); inner `none` is the absent-channel result. -/
def parseCsvNode (ch : Option (List (Option ℝ))) : Option (Option (List ℝ)) :=
  match ch with
  | none => some none
  | some toks => (seqToks toks).map some

/-- Body of `get_coords` for a present section (`src/utils.py` lines
249-260): parse the three channels, return the `([], [], [])` sentinel when x
or y is missing, zero-fill a missing z to the length of x. -/
def getCoordsSec (sec : SectionSrc) :
    Option (Option (List ℝ) × Option (List ℝ) × Option (List ℝ)) :=
  (parseCsvNode sec.x).bind (fun xs =>
  (parseCsvNode sec.y).bind (fun ys =>
  (parseCsvNode sec.z).bind (fun zs =>
  match xs, ys with
  | some xl, some yl =>
    some (some xl, some yl, some (zs.getD (List.replicate xl.length 0)))
  | _, _ => some (some [], some [], some []))))

/-- Embedding of `get_coords` (`src/utils.py` lines 245-260): a missing
section yields the `(None, None, None)` triple. -/
def getCoords (sec? : Option SectionSrc) :
    Option (Option (List ℝ) × Option (List ℝ) × Option (List ℝ)) :=
  match sec? with
  | none => some (none, none, none)
  | some sec => getCoordsSec sec

/-- Centerline segment distances used when the arclength channel is absent
(`src/utils.py` lines 277-280). -/
def clSegDists (cx cy : List ℝ) : List ℝ :=
  (List.range (cx.length - 1)).map (fun i =>
    Real.sqrt ((cx.getD (i + 1) 0 - cx.getD i 0) ^ 2 +
      (cy.getD (i + 1) 0 - cy.getD i 0) ^ 2))

/-- Embedding of the arclength resolution (`src/utils.py` lines 274-280): an
explicit channel is used verbatim; otherwise, when the centerline x channel is
truthy, cumulative distances are accumulated from 0.  The outer `none` models
the `IndexError` raised when the y channel is shorter than the x channel. -/
def deriveArclength (cx? cy? : Option (List ℝ)) (s? : Option (List ℝ)) :
    Option (Option (List ℝ)) :=
  match s? with
  | some l => some (some l)
  | none =>
    match cx? with
    | none => some none
    | some cx =>
      if cx.isEmpty then some none
      else
        match cy? with
        | some cy =>
          if cy.length < cx.length then none
          else some (some (cumulFrom 0 (clSegDists cx cy)))
        | none => none

/-- Tilt angle `math.degrees(math.atan2(dz, w))` (`src/utils.py` line 297).
For `w > 0` (the loader only evaluates this under the guard `w > 0.1`),
`atan2 dz w = arctan (dz / w)`. -/
def bankingAngle (dz w : ℝ) : ℝ :=
  Real.arctan (dz / w) * (180 / Real.pi)

/-- Body of the banking loop (`src/utils.py` lines 285-300). -/
def computeBanking (lx ly lz rx ry rz : List ℝ) : List ℝ :=
  (List.range lz.length).map (fun i =>
    if Real.sqrt ((rx.getD i 0 - lx.getD i 0) * (rx.getD i 0 - lx.getD i 0) +
        (ry.getD i 0 - ly.getD i 0) * (ry.getD i 0 - ly.getD i 0)) > 1 / 10 then
      bankingAngle (rz.getD i 0 - lz.getD i 0)
        (Real.sqrt ((rx.getD i 0 - lx.getD i 0) * (rx.getD i 0 - lx.getD i 0) +
          (ry.getD i 0 - ly.getD i 0) * (ry.getD i 0 - ly.getD i 0)))
    else 0)

/-- Truthiness test `left_z and right_z and len(left_z) == len(right_z)`
(`src/utils.py` line 285). -/
def bankingGuard (lZ rZ : Option (List ℝ)) : Bool :=
  match lZ, rZ with
  | some (a :: l), some (b :: r) => (a :: l).length == (b :: r).length
  | _, _ => false

/-- Banking derivation (`src/utils.py` lines 284-302).  The `none` results
model the uncaught-then-caught exceptions of the source: indexing a
too-short coordinate list in the loop, or `len(None)` when the centerline x
channel is `None` in the all-zero branch. -/
def bankingOf (lX lY lZ rX rY rZ clX : Option (List ℝ)) : Option (List ℝ) :=
  if bankingGuard lZ rZ then
    match lX, lY, lZ, rX, rY, rZ with
    | some lx, some ly, some lz, some rx, some ry, some rz =>
      if lz.length ≤ lx.length ∧ lz.length ≤ ly.length ∧
          lz.length ≤ rx.length ∧ lz.length ≤ ry.length then
        some (computeBanking lx ly lz rx ry rz)
      else none
    | _, _, _, _, _, _ => none
  else
    match clX with
    | some cx => some (List.replicate cx.length 0)
    | none => none

/-- Embedding of `TrackManager.load_track_data` (`src/utils.py` lines
216-314).  The argument is `none` when no track file variant exists or the
file has no `data` node; the result is `none` exactly when the source returns
`None` (missing file, missing data node, or any exception caught by the
surrounding handler). -/
def loadTrackData (src? : Option TrackSrc) : Option TrackGeometry :=
  match src? with
  | none => none
  | some src =>
    (getCoords src.centerline).bind (fun cl =>
    (getCoords src.left_boundary).bind (fun lb =>
    (match src.right_boundary with
     | none => getCoords src.right_measured_boundary
     | some sec => getCoords (some sec)).bind (fun rb =>
    (parseCsvNode src.arclength).bind (fun sArc =>
    (deriveArclength cl.1 cl.2.1 sArc).bind (fun sFin =>
    (bankingOf lb.1 lb.2.1 lb.2.2 rb.1 rb.2.1 rb.2.2 cl.1).bind (fun bank =>
    some ⟨cl.1, cl.2.1, cl.2.2, lb.1, lb.2.1, lb.2.2, rb.1, rb.2.1, rb.2.2,
      sFin, bank⟩))))))

/-- X samples of the fallback ellipse `500 * cos(linspace(0, 2*pi, n))`
(`src/utils.py` lines 145-149); meaningful for `n ≥ 2` (shorter fallbacks are
only produced on paths where the source raises before any sample is read). -/
def circleXs (n : ℕ) : List ℝ :=
  (List.range n).map (fun i => 500 * Real.cos (2 * Real.pi * (i : ℝ) / ((n : ℝ) - 1)))

/-- Y samples of the fallback ellipse `300 * sin(linspace(0, 2*pi, n))`. -/
def circleYs (n : ℕ) : List ℝ :=
  (List.range n).map (fun i => 300 * Real.sin (2 * Real.pi * (i : ℝ) / ((n : ℝ) - 1)))

/-- Reference-path resolution of `_generate_mock_data` (`src/utils.py` lines
128-149): the track centerline when the track loads with a nonempty x
channel; a load that yields an empty centerline resets the requested point
count to 0 before the ellipse fallback; a failed or missing load falls back
to the ellipse at the caller's point count.  `none` models the uncaught
`TypeError` on a geometry whose centerline channels are Python `None`. -/
def mockPath (src? : Option TrackSrc) (nPoints : ℕ) : Option (List ℝ × List ℝ) :=
  match loadTrackData src? with
  | some g =>
    match g.cl_x, g.cl_y with
    | some xs, some ys =>
      if xs.length = 0 then some (circleXs 0, circleYs 0)
      else some (xs, ys)
    | _, _ => none
  | none => some (circleXs nPoints, circleYs nPoints)

/-- Embedding of the mock branch of `FastestLapWrapper.optimize`
(`src/utils.py` lines 74-76 and 126-205).  The result is `none` exactly when
the source raises: `np.gradient` requires at least two samples, and x/y
channels of unequal length fail in the distance loop or in the elementwise
curvature products. -/
def optimizeMock (src? : Option TrackSrc) (nPoints hv : ℕ) : Option TelemetryRecord :=
  match mockPath src? nPoints with
  | none => none
  | some (xs, ys) =>
    if 2 ≤ xs.length ∧ ys.length = xs.length then some (generateMockCore xs ys hv)
    else none

/-- State of `FastestLapWrapper.__init__` (`src/utils.py` lines 41-51). -/
structure FastestLapWrapper where
  mockMode : Bool

/-- Constructor semantics: `mock_mode` is set exactly when importing the
`fastest_lap` backend library fails (`src/utils.py` lines 42-51). -/
def mkWrapper (importOk : Bool) : FastestLapWrapper :=
  ⟨!importOk⟩

/-- Dictionary lookup `keys[k]` over the backend's channel map. -/
def lookupChan (runData : List (String × List ℝ)) (k : String) : Option (List ℝ) :=
  (runData.find? (fun p => p.1 == k)).map Prod.snd

/-- Embedding of the helper `get_var` (`src/utils.py` lines 104-107): probe
the preferred keys in order and take the first present; exhaustion models the
raised `KeyError`. -/
def getVar (runData : List (String × List ℝ)) : List String → Option (List ℝ)
  | [] => none
  | k :: ks =>
    match lookupChan runData k with
    | some v => some v
    | none => getVar runData ks

/-- Alias list for the x channel (`src/utils.py` line 110). -/
def xAliases : List String := ["x", "chassis.position.x"]

/-- Alias list for the y channel (`src/utils.py` line 111). -/
def yAliases : List String := ["y", "chassis.position.y"]

/-- Alias list for the speed channel (`src/utils.py` line 112). -/
def uAliases : List String := ["u", "chassis.velocity.x", "vehicle.velocity.x"]

/-- Alias list for the time channel (`src/utils.py` line 113). -/
def tAliases : List String := ["time"]

/-- Embedding of the result-dict assembly of the live branch (`src/utils.py`
lines 102-119): each canonical channel is resolved through `get_var`, and the
arclength slot is the independently downloaded `s`; a missing channel lands
in the `except KeyError` handler, which reports the channels actually present
(the error payload here) and returns `None`. -/
def normalizeRunData (runData : List (String × List ℝ)) (s : List ℝ) :
    Except (List String) TelemetryRecord :=
  match getVar runData xAliases, getVar runData yAliases,
      getVar runData uAliases, getVar runData tAliases with
  | some x, some y, some u, some t => Except.ok ⟨x, y, u, t, s⟩
  | _, _, _, _ => Except.error (runData.map Prod.fst)

/-- Embedding of `FastestLapWrapper.optimize` (`src/utils.py` lines 73-124).
The live backend interaction is abstracted as an optional response (channel
map plus downloaded arclength); `none` stands for a missing track file or a
backend exception, both of which return `None` in the source. -/
def FastestLapWrapper.optimize (w : FastestLapWrapper) (src? : Option TrackSrc)
    (nPoints hv : ℕ) (backend : Option (List (String × List ℝ) × List ℝ)) :
    Option TelemetryRecord :=
  if w.mockMode then optimizeMock src? nPoints hv
  else
    match backend with
    | none => none
    | some (rd, s) => (normalizeRunData rd s).toOption

/-- Summary-ledger row of `ResultManager.save_run` (`src/utils.py` lines
438-446). -/
structure RunRecord where
  timestamp : String
  run_id : String
  vehicle : String
  track : String
  lap_time_s : ℝ
  max_speed_kmh : ℝ
  telemetry_file : String

/-- On-disk state of the result store: the summary ledger rows in file order
and the telemetry blob directory as a name-keyed association list. -/
structure ResultStore where
  ledger : List RunRecord
  blobs : List (String × TelemetryRecord)

/-- Store with no ledger file and no blobs. -/
def emptyStore : ResultStore := ⟨[], []⟩

/-- Timestamp munging `timestamp.replace(':','-').replace(' ','_')`
(`src/utils.py` line 429). -/
def mungeTimestamp (ts : String) : String :=
  ⟨ts.data.map (fun c => if c = ':' then '-' else if c = ' ' then '_' else c)⟩

/-- Telemetry blob name `f"{munged_timestamp}_{vehicle}_{track}.csv"`
(`src/utils.py` line 429); it does not involve the run id. -/
def blobFileName (ts vehicle track : String) : String :=
  mungeTimestamp ts ++ "_" ++ vehicle ++ "_" ++ track ++ ".csv"

/-- Writing a blob file: an existing file of the same name is overwritten
(`df.to_csv`, `src/utils.py` line 431). -/
def blobInsert (bl : List (String × TelemetryRecord)) (f : String)
    (r : TelemetryRecord) : List (String × TelemetryRecord) :=
  (f, r) :: bl.filter (fun p => !(p.1 == f))

/-- Reading a blob file by name. -/
def blobLookup (bl : List (String × TelemetryRecord)) (f : String) :
    Option TelemetryRecord :=
  (bl.find? (fun p => p.1 == f)).map Prod.snd

/-- Guard under which `save_run` completes: `pd.DataFrame(run_data)` requires
the five channels to share one length, and `run_data['time'][-1]` requires a
nonempty time channel (`src/utils.py` lines 427-436). -/
def saveOkB (rec : TelemetryRecord) : Bool :=
  rec.y.length == rec.x.length && rec.u.length == rec.x.length &&
    rec.time.length == rec.x.length && rec.s.length == rec.x.length &&
    !rec.time.isEmpty

/-- Embedding of `ResultManager.save_run` (`src/utils.py` lines 416-457).
The wall-clock timestamp and the effective run id (the caller's, or the fresh
`uuid4` prefix generated when none is supplied) are explicit inputs; the blob
is written first, then one summary row is appended.  `none` models the
exceptions raised on ragged or empty channel data. -/
def saveRun (st : ResultStore) (vehicle track : String) (rec : TelemetryRecord)
    (ts rid : String) : Option (ResultStore × String) :=
  if saveOkB rec then
    some (⟨st.ledger ++
        [⟨ts, rid, vehicle, track, rec.time.getLastD 0, npMax rec.u * (36 / 10),
          blobFileName ts vehicle track⟩],
        blobInsert st.blobs (blobFileName ts vehicle track) rec⟩, rid)
  else none

/-- Modelled from the spec: `ResultManager.load_telemetry` is called from
`src/pages/4_Results.py` but its definition is not among the sources.  Per
the spec (section 4.5), `load(run_id)` resolves the ledger row carrying
`run_id` and reads the telemetry blob it references; an unknown `run_id`
yields `NotFound`, modelled as `none`. -/
def loadTelemetry (st : ResultStore) (rid : String) : Option TelemetryRecord :=
  (st.ledger.find? (fun row => row.run_id == rid)).bind
    (fun row => blobLookup st.blobs row.telemetry_file)

/-- Modelled from the spec: `ResultManager.delete_run` is called from
`src/pages/4_Results.py` but its definition is not among the sources.  Per
the spec (section 4.5), `delete(run_id)` removes both the blob and its ledger
row and returns whether a row existed. -/
def deleteRun (st : ResultStore) (rid : String) : ResultStore × Bool :=
  match st.ledger.find? (fun row => row.run_id == rid) with
  | none => (st, false)
  | some row =>
    (⟨st.ledger.filter (fun r => !(r.run_id == rid)),
      st.blobs.filter (fun p => !(p.1 == row.telemetry_file))⟩, true)

/-- The synthesizer as invoked with a vehicle label: `hashlib.sha256` of the
label, read as an integer, is the only label-dependent input of
`_generate_mock_data` (`src/utils.py` lines 174-176).  The digest function is
a parameter `sha`; the source's is the fixed SHA-256. -/
def generateMockData (sha : String → ℕ) (xs ys : List ℝ) (label : String) :
    TelemetryRecord :=
  generateMockCore xs ys (sha label)

/-- Canonical telemetry-record shape of the spec (section 3): five channels
of one common length `N ≥ 2`, with arclength and time starting at 0 and
non-decreasing. -/
def canonicalShape (r : TelemetryRecord) : Prop :=
  2 ≤ r.x.length ∧ r.y.length = r.x.length ∧ r.u.length = r.x.length ∧
    r.s.length = r.x.length ∧ r.time.length = r.x.length ∧
    r.s.head? = some 0 ∧ List.Chain' (· ≤ ·) r.s ∧
    r.time.head? = some 0 ∧ List.Chain' (· ≤ ·) r.time

/-- Concrete two-sample telemetry record used to exercise the result store. -/
def exRec1 : TelemetryRecord := ⟨[0, 1], [0, 0], [10, 10], [0, 1], [0, 1]⟩

/-- A second concrete record, distinct from `exRec1`. -/
def exRec2 : TelemetryRecord := ⟨[0, 2], [0, 0], [20, 20], [0, 2], [0, 2]⟩

/-- A concrete wall-clock timestamp in the ledger's format. -/
def exTs : String := "2024-01-01 10:00:00"

/-- Concrete track source whose centerline has exactly one sample. -/
def cexTrackOnePoint : TrackSrc :=
  ⟨some ⟨some [some 5], some [some 3], none⟩, none, none, none, none⟩

/-- Concrete well-formed three-sample straight track source. -/
def exTrackStraight : TrackSrc :=
  ⟨some ⟨some [some 0, some 1, some 2], some [some 0, some 0, some 0], none⟩,
    none, none, none, none⟩

/-- Concrete track source whose centerline section is missing its x channel. -/
def cexTrackMissingX : TrackSrc :=
  ⟨some ⟨none, some [some 0, some 0], none⟩, none, none, none, none⟩

/-- Concrete track source with a 3-sample centerline and 2-sample boundary
sections carrying no elevation channel (so z is zero-filled). -/
def cexTrackShortBounds : TrackSrc :=
  ⟨some ⟨some [some 0, some 10, some 20], some [some 0, some 0, some 0], none⟩,
    some ⟨some [some 0, some 10], some [some 1, some 1], none⟩,
    some ⟨some [some 0, some 10], some [some 3, some 3], none⟩,
    none, none⟩

/-- Concrete backend channel map whose channels are not canonical: one-sample
positions and a time channel starting at 5. -/
def cexBackend : List (String × List ℝ) :=
  [(("x"), [1]), (("y"), [1]), (("u"), [1]), (("time"), [5, 6])]

/-- Concrete geometry produced by loading `cexTrackMissingX`. -/
def exGeomEmpty : TrackGeometry :=
  ⟨some [], some [], some [], none, none, none, none, none, none, none, []⟩

/-- Witness for the amended C8 on a concrete source with no boundary data. -/

theorem npGradient_length (l : List ℝ) : (npGradient l).length = l.length := by
  simp [npGradient]

theorem mockCurvature_length (xs ys : List ℝ) :
    (mockCurvature xs ys).length = xs.length := by
  simp [mockCurvature]

theorem cumulFrom_length (start : ℝ) (ds : List ℝ) :
    (cumulFrom start ds).length = ds.length + 1 := by
  simp [cumulFrom, List.length_scanl]

theorem segDists_length (xs ys : List ℝ) :
    (segDists xs ys).length = xs.length - 1 := by
  simp [segDists]

theorem segDists_nonneg (xs ys : List ℝ) :
    ∀ d ∈ segDists xs ys, 0 ≤ d := by
  intro d hd
  simp only [segDists, List.mem_map] at hd
  obtain ⟨i, _, rfl⟩ := hd
  exact Real.sqrt_nonneg _

theorem curvatureDen_ge (dx dy : ℝ) : epsFloor ≤ curvatureDen dx dy := by
  unfold curvatureDen
  by_cases h : (dx ^ 2 + dy ^ 2) ^ ((3 : ℝ) / 2) < epsFloor
  · simp [h]
  · simp [h]
    exact le_of_not_lt h

theorem curvatureDen_pos (dx dy : ℝ) : 0 < curvatureDen dx dy :=
  lt_of_lt_of_le (by norm_num [epsFloor]) (curvatureDen_ge dx dy)

theorem mockCurvature_nonneg (xs ys : List ℝ) :
    ∀ c ∈ mockCurvature xs ys, 0 ≤ c := by
  intro c hc
  simp only [mockCurvature, List.mem_map] at hc
  obtain ⟨i, _, rfl⟩ := hc
  exact div_nonneg (abs_nonneg _) (le_of_lt (curvatureDen_pos _ _))

/-- Speed factor of `_generate_mock_data` (`src/utils.py` lines 174-176): the
SHA-256 digest of the vehicle label, as an integer, is reduced mod 100 and
mapped to `1.0 + (h - 50)/500.0`.  `hv` stands for the digest integer. -/

theorem foldlMax_init_le (l : List ℝ) (a : ℝ) : a ≤ l.foldl max a := by
  induction l generalizing a with
  | nil => simp
  | cons b t ih => exact le_trans (le_max_left a b) (by simpa using ih (max a b))

theorem foldlMax_mem_le (l : List ℝ) (a : ℝ) : ∀ x ∈ l, x ≤ l.foldl max a := by
  induction l generalizing a with
  | nil => simp
  | cons b t ih =>
    intro x hx
    rcases List.mem_cons.mp hx with h | h
    · subst h
      exact le_trans (le_max_right a x) (by simpa using foldlMax_init_le t (max a x))
    · simpa using ih (max a b) x h

theorem npMax_mem_le (l : List ℝ) : ∀ x ∈ l, x ≤ npMax l := by
  intro x hx
  cases l with
  | nil => cases hx
  | cons a t =>
    rcases List.mem_cons.mp hx with h | h
    · subst h; exact foldlMax_init_le t x
    · exact foldlMax_mem_le t a x h

theorem rollingMean10_length (l : List ℝ) :
    (rollingMean10 l).length = l.length := by
  simp [rollingMean10]

theorem self_mem_rollWindow (n i : ℕ) (hi : i < n) : i ∈ rollWindow n i := by
  simp only [rollWindow, List.mem_filter, List.mem_range, decide_eq_true_eq]
  exact ⟨hi, Nat.sub_le i 5, Nat.le_add_right i 4⟩

theorem rollWindow_mem_lt (n i j : ℕ) (hj : j ∈ rollWindow n i) : j < n := by
  simp only [rollWindow, List.mem_filter, List.mem_range] at hj
  exact hj.1

theorem getD_nonneg (l : List ℝ) (i : ℕ) (h : ∀ x ∈ l, 0 ≤ x) : 0 ≤ l.getD i 0 := by
  by_cases hi : i < l.length
  · rw [List.getD_eq_getElem l 0 hi]
    exact h _ (List.getElem_mem hi)
  · rw [List.getD_eq_default l 0 (Nat.le_of_not_lt hi)]

/-- A mean over a nonempty index window of values lying in `[a, b]` lies in
`[a, b]` itself. -/
theorem rollingMean10_mem_bounds (l : List ℝ) (a b : ℝ)
    (hl : ∀ v ∈ l, a ≤ v ∧ v ≤ b) :
    ∀ v ∈ rollingMean10 l, a ≤ v ∧ v ≤ b := by
  intro v hv
  simp only [rollingMean10, List.mem_map, List.mem_range] at hv
  obtain ⟨i, hi, rfl⟩ := hv
  have hmem : i ∈ rollWindow l.length i := self_mem_rollWindow _ _ hi
  have hpos : 0 < ((rollWindow l.length i).length : ℝ) := by
    have : 0 < (rollWindow l.length i).length := List.length_pos.mpr (by
      intro hnil; rw [hnil] at hmem; cases hmem)
    exact_mod_cast this
  set w := (rollWindow l.length i).map (fun j => l.getD j 0) with hw
  have hlen : w.length = (rollWindow l.length i).length := by simp [hw]
  have hbnd : ∀ x ∈ w, a ≤ x ∧ x ≤ b := by
    intro x hx
    simp only [hw, List.mem_map] at hx
    obtain ⟨j, hj, rfl⟩ := hx
    have hjlt : j < l.length := rollWindow_mem_lt _ _ _ hj
    rw [List.getD_eq_getElem l 0 hjlt]
    exact hl _ (List.getElem_mem hjlt)
  constructor
  · rw [le_div_iff₀ hpos]
    calc a * ((rollWindow l.length i).length : ℝ)
        = (w.length : ℝ) * a := by rw [hlen]; ring
      _ ≤ w.sum := by
          have := List.card_nsmul_le_sum w a (fun x hx => (hbnd x hx).1)
          simpa [nsmul_eq_mul] using this
  · rw [div_le_iff₀ hpos]
    calc w.sum ≤ (w.length : ℝ) * b := by
          have := List.sum_le_card_nsmul w b (fun x hx => (hbnd x hx).2)
          simpa [nsmul_eq_mul] using this
      _ = b * ((rollWindow l.length i).length : ℝ) := by rw [hlen]; ring

theorem cumulFrom_getD_zero (start : ℝ) (ds : List ℝ) :
    (cumulFrom start ds).getD 0 0 = start := by
  cases ds <;> simp [cumulFrom, List.scanl]

theorem cumulFrom_head (start : ℝ) (ds : List ℝ) :
    (cumulFrom start ds).head? = some start := by
  cases ds <;> simp [cumulFrom, List.scanl]

theorem cumulFrom_getD_succ (start : ℝ) (ds : List ℝ) (i : ℕ) (hi : i < ds.length) :
    (cumulFrom start ds).getD (i + 1) 0 =
      (cumulFrom start ds).getD i 0 + ds.getD i 0 := by
  induction ds generalizing start i with
  | nil => cases hi
  | cons d t ih =>
    cases i with
    | zero =>
      simp [cumulFrom, List.scanl, cumulFrom_getD_zero (start + d) t]
    | succ j =>
      have hj : j < t.length := Nat.lt_of_succ_lt_succ hi
      have := ih (start + d) j hj
      simpa [cumulFrom, List.scanl] using this

theorem cumulFrom_chain (start : ℝ) (ds : List ℝ) (h : ∀ d ∈ ds, 0 ≤ d) :
    List.Chain' (· ≤ ·) (cumulFrom start ds) := by
  induction ds generalizing start with
  | nil => simp [cumulFrom, List.scanl]
  | cons d t ih =>
    have hrest : List.Chain' (· ≤ ·) (cumulFrom (start + d) t) :=
      ih (start + d) (fun x hx => h x (List.mem_cons_of_mem d hx))
    have hstep : start ≤ start + d := le_add_of_nonneg_right (h d (List.mem_cons_self d t))
    have : cumulFrom start (d :: t) = start :: cumulFrom (start + d) t := by
      simp [cumulFrom, List.scanl]
    rw [this]
    apply List.Chain'.cons'
    · exact hrest
    · intro y hy
      rw [show (cumulFrom (start + d) t).head? = some (start + d) from cumulFrom_head _ _] at hy
      cases hy
      exact hstep

theorem mockS_length (xs ys : List ℝ) (h : 1 ≤ xs.length) :
    (mockS xs ys).length = xs.length := by
  simp only [mockS, cumulFrom_length, segDists_length]
  omega

theorem mockS_head (xs ys : List ℝ) : (mockS xs ys).head? = some 0 :=
  cumulFrom_head 0 _

theorem mockS_chain (xs ys : List ℝ) : List.Chain' (· ≤ ·) (mockS xs ys) :=
  cumulFrom_chain 0 _ (segDists_nonneg xs ys)

theorem timeDeltas_of_mockS_nonneg (xs ys u : List ℝ) :
    ∀ d ∈ timeDeltas (mockS xs ys) u xs.length, 0 ≤ d := by
  intro d hd
  simp only [timeDeltas, List.mem_map, List.mem_range] at hd
  obtain ⟨i, hi, rfl⟩ := hd
  have hseg : i < (segDists xs ys).length := by
    rw [segDists_length]; exact hi
  have hstep := cumulFrom_getD_succ 0 (segDists xs ys) i hseg
  have hnum : 0 ≤ (mockS xs ys).getD (i + 1) 0 - (mockS xs ys).getD i 0 := by
    rw [show mockS xs ys = cumulFrom 0 (segDists xs ys) from rfl, hstep]
    have := getD_nonneg (segDists xs ys) i (segDists_nonneg xs ys)
    linarith
  have hden : (0 : ℝ) <
      (if (u.getD (i + 1) 0 + u.getD i 0) / 2 < 1 then 1
       else (u.getD (i + 1) 0 + u.getD i 0) / 2) := by
    by_cases hc : (u.getD (i + 1) 0 + u.getD i 0) / 2 < 1
    · rw [if_pos hc]; norm_num
    · rw [if_neg hc]
      linarith [le_of_not_lt hc]
  exact div_nonneg hnum (le_of_lt hden)

theorem mockTime_length (xs ys : List ℝ) (hv : ℕ) (h : 1 ≤ xs.length) :
    (mockTime xs ys hv).length = xs.length := by
  simp only [mockTime, cumulFrom_length, timeDeltas, List.length_map, List.length_range]
  omega

theorem mockTime_head (xs ys : List ℝ) (hv : ℕ) :
    (mockTime xs ys hv).head? = some 0 :=
  cumulFrom_head 0 _

theorem mockTime_chain (xs ys : List ℝ) (hv : ℕ) :
    List.Chain' (· ≤ ·) (mockTime xs ys hv) :=
  cumulFrom_chain 0 _ (timeDeltas_of_mockS_nonneg xs ys (mockU xs ys hv))

theorem speedFactor_pos (hv : ℕ) : 0 < speedFactor hv := by
  unfold speedFactor
  have h0 : (0 : ℝ) ≤ ((hv % 100 : ℕ) : ℝ) := Nat.cast_nonneg _
  nlinarith

theorem minSpeed_lt_maxSpeed (hv : ℕ) : minSpeedOf hv < maxSpeedOf hv := by
  unfold minSpeedOf maxSpeedOf
  have := speedFactor_pos hv
  nlinarith

theorem mockKNorm_bounds (xs ys : List ℝ) :
    ∀ k ∈ mockKNorm xs ys, 0 ≤ k ∧ k < 1 := by
  intro k hk
  simp only [mockKNorm, List.mem_map] at hk
  obtain ⟨c, hc, rfl⟩ := hk
  have hc0 : 0 ≤ c := mockCurvature_nonneg xs ys c hc
  have hcM : c ≤ npMax (mockCurvature xs ys) := npMax_mem_le _ c hc
  have hM0 : 0 ≤ npMax (mockCurvature xs ys) := le_trans hc0 hcM
  have hden : (0 : ℝ) < npMax (mockCurvature xs ys) + epsFloor := by
    have : (0 : ℝ) < epsFloor := by norm_num [epsFloor]
    linarith
  constructor
  · exact div_nonneg hc0 (le_of_lt hden)
  · rw [div_lt_one hden]
    have : (0 : ℝ) < epsFloor := by norm_num [epsFloor]
    linarith

theorem mockURaw_bounds (xs ys : List ℝ) (hv : ℕ) :
    ∀ v ∈ mockURaw xs ys hv, minSpeedOf hv ≤ v ∧ v ≤ maxSpeedOf hv := by
  intro v hvv
  simp only [mockURaw, List.mem_map] at hvv
  obtain ⟨k, hk, rfl⟩ := hvv
  obtain ⟨hk0, hk1⟩ := mockKNorm_bounds xs ys k hk
  have ht0 : (0 : ℝ) ≤ k ^ ((3 : ℝ) / 10) := Real.rpow_nonneg hk0 _
  have ht1 : k ^ ((3 : ℝ) / 10) ≤ 1 :=
    Real.rpow_le_one hk0 (le_of_lt hk1) (by norm_num)
  have hms : minSpeedOf hv ≤ maxSpeedOf hv := le_of_lt (minSpeed_lt_maxSpeed hv)
  constructor
  · nlinarith
  · nlinarith

theorem mockU_length (xs ys : List ℝ) (hv : ℕ) :
    (mockU xs ys hv).length = xs.length := by
  simp [mockU, rollingMean10_length, mockURaw, mockKNorm, mockCurvature_length]

theorem mockU_bounds (xs ys : List ℝ) (hv : ℕ) :
    ∀ v ∈ mockU xs ys hv, minSpeedOf hv ≤ v ∧ v ≤ maxSpeedOf hv :=
  rollingMean10_mem_bounds _ _ _ (mockURaw_bounds xs ys hv)

/-- Source form of one geometric section of a track XML file
(`TrackManager.load_track_data`, `src/utils.py` lines 239-260).  Each channel
is `none` when the child element is absent or has empty text, and otherwise
the list of comma-separated tokens; a token is `some r` when `float(...)`
parses it to `r` and `none` when it is malformed (so that `float` raises). -/

theorem seqToks_eq_none_of_mem (toks : List (Option ℝ)) (h : none ∈ toks) :
    seqToks toks = none := by
  induction toks with
  | nil => cases h
  | cons t ts ih =>
    cases t with
    | none => simp [seqToks]
    | some v =>
      have h1 : none ∈ ts := by
        rcases List.mem_cons.mp h with h1 | h1
        · cases h1
        · exact h1
      simp [seqToks, ih h1]

/-- C1: a fresh save followed by a load of the returned run id yields the
saved record exactly (exact arithmetic subsumes the claim's serialization
tolerance), and a load of a run id carried by no ledger row yields
`NotFound`.  The load operation is modelled from the spec. -/
theorem C1_save_load_roundtrip :
    (∀ st v t rec ts rid, (∀ row ∈ st.ledger, row.run_id ≠ rid) →
      saveOkB rec = true →
      loadTelemetry (((saveRun st v t rec ts rid).map Prod.fst).getD st) rid =
        some rec) ∧
    (∀ st rid, (∀ row ∈ st.ledger, row.run_id ≠ rid) →
      loadTelemetry st rid = none) := by
  constructor
  · intro st v t rec ts rid hfresh hok
    have hnone : st.ledger.find? (fun row => row.run_id == rid) = none :=
      List.find?_eq_none.mpr (fun row hrow => by simp [hfresh row hrow])
    have hsave : ((saveRun st v t rec ts rid).map Prod.fst).getD st =
        ⟨st.ledger ++
          [⟨ts, rid, v, t, rec.time.getLastD 0, npMax rec.u * (36 / 10),
            blobFileName ts v t⟩],
          blobInsert st.blobs (blobFileName ts v t) rec⟩ := by
      unfold saveRun
      rw [hok]
      rfl
    rw [hsave]
    unfold loadTelemetry
    rw [show (⟨st.ledger ++
        [⟨ts, rid, v, t, rec.time.getLastD 0, npMax rec.u * (36 / 10),
          blobFileName ts v t⟩],
        blobInsert st.blobs (blobFileName ts v t) rec⟩ : ResultStore).ledger =
      st.ledger ++
        [⟨ts, rid, v, t, rec.time.getLastD 0, npMax rec.u * (36 / 10),
          blobFileName ts v t⟩] from rfl]
    rw [List.find?_append, hnone]
    simp [List.find?, blobLookup, blobInsert]
  · intro st rid hfresh
    have hnone : st.ledger.find? (fun row => row.run_id == rid) = none :=
      List.find?_eq_none.mpr (fun row hrow => by simp [hfresh row hrow])
    unfold loadTelemetry
    rw [hnone]
    rfl

/-- Witness for C1 on a concrete record saved into the empty store. -/
theorem C1_save_load_roundtrip_witness :
    saveOkB exRec1 = true ∧
      loadTelemetry
        (((saveRun emptyStore ("car") ("monza") exRec1 exTs ("run1")).map
          Prod.fst).getD emptyStore) ("run1") = some exRec1 :=
  ⟨rfl, C1_save_load_roundtrip.1 emptyStore ("car") ("monza") exRec1 exTs
    ("run1") (by simp [emptyStore]) rfl⟩

/-- C2 fails on the code: two saves sharing timestamp, vehicle, and track get
distinct run ids but the same blob file name (the name does not involve the
run id), so the second save overwrites the first run's blob — the two ledger
rows reference one shared blob. -/
theorem C2_shared_blob_counterexample :
    ((saveRun emptyStore ("car") ("monza") exRec1 exTs ("run1")).bind (fun p =>
      (saveRun p.1 ("car") ("monza") exRec2 exTs ("run2")).map (fun q =>
        (q.1.ledger.map (fun row => row.run_id),
         q.1.ledger.map (fun row => row.telemetry_file),
         q.1.blobs.map Prod.fst)))) =
      some (["run1", "run2"],
        ["2024-01-01_10-00-00_car_monza.csv",
         "2024-01-01_10-00-00_car_monza.csv"],
        ["2024-01-01_10-00-00_car_monza.csv"]) ∧
    (("run1" : String) == ("run2" : String)) = false :=
  ⟨rfl, rfl⟩

/-- C2 amended: a fresh save appends exactly one ledger row carrying the run
id and writes the blob named by (timestamp, vehicle, track) — so distinct run
ids reference distinct blobs only when those naming triples give distinct
file names — and delete (modelled from the spec) removes the run's ledger
rows and its referenced blob, returning whether a row existed. -/
theorem C2_run_addressing_amended :
    (∀ st v t rec ts rid, (∀ row ∈ st.ledger, row.run_id ≠ rid) →
      saveOkB rec = true →
      ((((saveRun st v t rec ts rid).map Prod.fst).getD st).ledger.countP
        (fun row => row.run_id == rid) = 1 ∧
       blobLookup (((saveRun st v t rec ts rid).map Prod.fst).getD st).blobs
         (blobFileName ts v t) = some rec)) ∧
    (∀ st rid,
      (deleteRun st rid).2 = st.ledger.any (fun row => row.run_id == rid) ∧
      (∀ row ∈ (deleteRun st rid).1.ledger, row.run_id ≠ rid) ∧
      (∀ row, st.ledger.find? (fun r => r.run_id == rid) = some row →
        ∀ p ∈ (deleteRun st rid).1.blobs, p.1 ≠ row.telemetry_file)) := by
  constructor
  · intro st v t rec ts rid hfresh hok
    have hzero : st.ledger.countP (fun row => row.run_id == rid) = 0 :=
      List.countP_eq_zero.mpr (fun row hrow => by simp [hfresh row hrow])
    have hsave : ((saveRun st v t rec ts rid).map Prod.fst).getD st =
        ⟨st.ledger ++
          [⟨ts, rid, v, t, rec.time.getLastD 0, npMax rec.u * (36 / 10),
            blobFileName ts v t⟩],
          blobInsert st.blobs (blobFileName ts v t) rec⟩ := by
      unfold saveRun
      rw [hok]
      rfl
    rw [hsave]
    constructor
    · rw [show (⟨st.ledger ++
          [⟨ts, rid, v, t, rec.time.getLastD 0, npMax rec.u * (36 / 10),
            blobFileName ts v t⟩],
          blobInsert st.blobs (blobFileName ts v t) rec⟩ : ResultStore).ledger =
        st.ledger ++
          [⟨ts, rid, v, t, rec.time.getLastD 0, npMax rec.u * (36 / 10),
            blobFileName ts v t⟩] from rfl]
      rw [List.countP_append, hzero]
      simp [List.countP, List.countP.go]
    · simp [blobLookup, blobInsert]
  · intro st rid
    unfold deleteRun
    rcases hf : st.ledger.find? (fun r => r.run_id == rid) with _ | row0 <;>
      rw [hf]
    · refine ⟨?_, ?_, ?_⟩
      · have hall := List.find?_eq_none.mp hf
        have hany : (st.ledger.any fun row => row.run_id == rid) = false := by
          rw [List.any_eq_false]
          intro row hrow
          exact hall row hrow
        rw [hany]
      · intro row hrow hcontra
        exact (List.find?_eq_none.mp hf) row hrow (by simp [hcontra])
      · intro row hrm
        cases hrm
    · refine ⟨?_, ?_, ?_⟩
      · have hp := List.find?_some hf
        have hany : (st.ledger.any fun row => row.run_id == rid) = true := by
          rw [List.any_eq_true]
          exact ⟨row0, List.mem_of_find?_eq_some hf, hp⟩
        rw [hany]
      · intro row hrow
        simp only [List.mem_filter] at hrow
        intro hcontra
        rcases hrow with ⟨_, h2⟩
        rw [hcontra] at h2
        simp at h2
      · intro row hfind p hp2
        cases hfind
        simp only [List.mem_filter] at hp2
        intro hcontra
        rcases hp2 with ⟨_, h2⟩
        rw [hcontra] at h2
        simp at h2

/-- Witness for the amended C2 on the empty store. -/
theorem C2_run_addressing_amended_witness :
    saveOkB exRec1 = true ∧
      ((((saveRun emptyStore ("car") ("monza") exRec1 exTs ("run1")).map
        Prod.fst).getD emptyStore).ledger.countP
          (fun row => row.run_id == ("run1")) = 1) ∧
      (deleteRun emptyStore ("run9")).2 =
        emptyStore.ledger.any (fun row => row.run_id == ("run9")) :=
  ⟨rfl,
    (C2_run_addressing_amended.1 emptyStore ("car") ("monza") exRec1 exTs
      ("run1") (by simp [emptyStore]) rfl).1,
    (C2_run_addressing_amended.2 emptyStore ("run9")).1⟩

/-- C3 fails on the code: in mock mode, a track whose centerline has exactly
one sample makes `optimize` raise (the synthesizer's `np.gradient` needs two
samples and nothing catches the error), so not every mock `optimize` call
returns a telemetry record. -/
theorem C3_mock_optimize_raises_counterexample :
    (mkWrapper false).mockMode = true ∧
    FastestLapWrapper.optimize (mkWrapper false) (some cexTrackOnePoint)
      400 0 none = none :=
  ⟨rfl, rfl⟩

/-- C3 amended: a failed backend import puts the bridge in mock mode for the
session, and every subsequent `optimize` call whose resolved reference path
has at least two equal-length x/y samples returns the synthesizer's record
without error; a reference path of fewer than two samples instead makes the
call fail. -/
theorem C3_mock_mode_amended :
    (mkWrapper false).mockMode = true ∧
    (∀ src nPts hv backend xs ys,
      mockPath src nPts = some (xs, ys) → 2 ≤ xs.length →
      ys.length = xs.length →
      FastestLapWrapper.optimize (mkWrapper false) src nPts hv backend =
        some (generateMockCore xs ys hv)) := by
  refine ⟨rfl, ?_⟩
  intro src nPts hv backend xs ys hpath h2 hlen
  unfold FastestLapWrapper.optimize
  rw [show (mkWrapper false).mockMode = true from rfl]
  simp only [if_true]
  unfold optimizeMock
  rw [hpath]
  show (if 2 ≤ xs.length ∧ ys.length = xs.length
    then some (generateMockCore xs ys hv) else none) =
    some (generateMockCore xs ys hv)
  rw [if_pos ⟨h2, hlen⟩]

/-- Witness for the amended C3 on a concrete three-sample track. -/
theorem C3_mock_mode_amended_witness :
    mockPath (some exTrackStraight) 400 = some ([0, 1, 2], [0, 0, 0]) ∧
      FastestLapWrapper.optimize (mkWrapper false) (some exTrackStraight)
        400 9 none = some (generateMockCore [0, 1, 2] [0, 0, 0] 9) :=
  ⟨rfl, C3_mock_mode_amended.2 (some exTrackStraight) 400 9 none
    [0, 1, 2] [0, 0, 0] rfl (by simp) (by simp)⟩

/-- C7 fails on the code: a track whose centerline section is missing its x
channel loads successfully — `get_coords` returns the empty-list sentinel
instead of failing — so the load yields a geometry object rather than a
`ParseError`. -/
theorem C7_missing_x_counterexample :
    (loadTrackData (some cexTrackMissingX)).map (fun g => (g.cl_x, g.cl_y)) =
      some (some ([] : List ℝ), some ([] : List ℝ)) :=
  rfl

theorem loadTrackData_some_elim (src : TrackSrc) (g : TrackGeometry)
    (hload : loadTrackData (some src) = some g) :
    ∃ cl lb rb sArc sFin bank,
      getCoords src.centerline = some cl ∧
      getCoords src.left_boundary = some lb ∧
      (match src.right_boundary with
       | none => getCoords src.right_measured_boundary
       | some sec => getCoords (some sec)) = some rb ∧
      parseCsvNode src.arclength = some sArc ∧
      deriveArclength cl.1 cl.2.1 sArc = some sFin ∧
      bankingOf lb.1 lb.2.1 lb.2.2 rb.1 rb.2.1 rb.2.2 cl.1 = some bank ∧
      g = ⟨cl.1, cl.2.1, cl.2.2, lb.1, lb.2.1, lb.2.2, rb.1, rb.2.1, rb.2.2,
        sFin, bank⟩ := by
  unfold loadTrackData at hload
  simp only [Option.bind_eq_some, Option.some.injEq] at hload
  obtain ⟨cl, h1, lb, h2, rb, h3, sArc, h4, sFin, h5, bank, h6, h7⟩ := hload
  exact ⟨cl, lb, rb, sArc, sFin, bank, h1, h2, h3, h4, h5, h6, h7.symm⟩

theorem parseCsvNode_badtok (ch : Option (List (Option ℝ)))
    (toks : List (Option ℝ)) (hch : ch = some toks) (htok : none ∈ toks) :
    parseCsvNode ch = none := by
  rw [hch]
  simp [parseCsvNode, seqToks_eq_none_of_mem toks htok]

theorem getCoordsSec_eq_none (sec : SectionSrc)
    (h : parseCsvNode sec.x = none ∨ parseCsvNode sec.y = none ∨
      parseCsvNode sec.z = none) :
    getCoordsSec sec = none := by
  unfold getCoordsSec
  rcases h with h | h | h
  · rw [h]
    rfl
  · rcases hx : parseCsvNode sec.x with _ | xs
    · rfl
    · simp only [Option.some_bind]
      rw [h]
      rfl
  · rcases hx : parseCsvNode sec.x with _ | xs
    · rfl
    · simp only [Option.some_bind]
      rcases hy : parseCsvNode sec.y with _ | ys
      · rfl
      · simp only [Option.some_bind]
        rw [h]
        rfl

theorem getCoords_missing_xy (sec : SectionSrc) (p :
      Option (List ℝ) × Option (List ℝ) × Option (List ℝ))
    (hxy : sec.x = none ∨ sec.y = none) (hp : getCoords (some sec) = some p) :
    p = (some [], some [], some []) := by
  rw [show getCoords (some sec) = getCoordsSec sec from rfl] at hp
  unfold getCoordsSec at hp
  simp only [Option.bind_eq_some] at hp
  obtain ⟨xs, hxs, ys, hys, zs, hzs, hp⟩ := hp
  rcases hxy with hx | hy
  · rw [hx] at hxs
    simp only [parseCsvNode, Option.some.injEq] at hxs
    subst hxs
    cases ys with
    | none =>
      simp only [Option.some.injEq] at hp
      exact hp.symm
    | some yl =>
      simp only [Option.some.injEq] at hp
      exact hp.symm
  · rw [hy] at hys
    simp only [parseCsvNode, Option.some.injEq] at hys
    subst hys
    cases xs with
    | none =>
      simp only [Option.some.injEq] at hp
      exact hp.symm
    | some xl =>
      simp only [Option.some.injEq] at hp
      exact hp.symm

/-- C7 amended: an unparsable numeric token in any parsed centerline channel
(x, y, or z) fails the whole load (no geometry object is produced,
all-or-nothing); but a centerline section missing its x or y channel does not
fail — whenever the load succeeds it yields a geometry whose centerline
channels are empty lists. -/
theorem C7_parse_failure_amended :
    (∀ src sec, src.centerline = some sec →
      ((∃ toks, sec.x = some toks ∧ none ∈ toks) ∨
       (∃ toks, sec.y = some toks ∧ none ∈ toks) ∨
       (∃ toks, sec.z = some toks ∧ none ∈ toks)) →
      loadTrackData (some src) = none) ∧
    (∀ src sec g, src.centerline = some sec →
      (sec.x = none ∨ sec.y = none) →
      loadTrackData (some src) = some g →
      g.cl_x = some [] ∧ g.cl_y = some [] ∧ g.cl_z = some []) := by
  constructor
  · intro src sec hcl hbad
    have hsec : getCoordsSec sec = none := by
      apply getCoordsSec_eq_none
      rcases hbad with ⟨toks, hch, htok⟩ | ⟨toks, hch, htok⟩ | ⟨toks, hch, htok⟩
      · exact Or.inl (parseCsvNode_badtok sec.x toks hch htok)
      · exact Or.inr (Or.inl (parseCsvNode_badtok sec.y toks hch htok))
      · exact Or.inr (Or.inr (parseCsvNode_badtok sec.z toks hch htok))
    have hcoords : getCoords src.centerline = none := by
      rw [hcl]
      exact hsec
    simp only [loadTrackData]
    rw [hcoords]
    rfl
  · intro src sec g hcl hxy hload
    obtain ⟨cl, lb, rb, sArc, sFin, bank, h1, h2, h3, h4, h5, h6, h7⟩ :=
      loadTrackData_some_elim src g hload
    rw [hcl] at h1
    have hclv := getCoords_missing_xy sec cl hxy h1
    subst hclv
    subst h7
    exact ⟨rfl, rfl, rfl⟩

/-- Witness for the amended C7: a bad token in the y channel fails the load
wholesale; a missing centerline x channel loads to the empty-centerline
geometry. -/
theorem C7_parse_failure_amended_witness :
    none ∈ [some (1 : ℝ), none] ∧
      loadTrackData (some (⟨some ⟨some [some 0, some 0],
        some [some 1, none], none⟩, none, none, none, none⟩ : TrackSrc)) =
        none ∧
      loadTrackData (some cexTrackMissingX) = some exGeomEmpty ∧
      exGeomEmpty.cl_x = some [] ∧ exGeomEmpty.cl_y = some [] :=
  ⟨by simp,
    C7_parse_failure_amended.1
      (⟨some ⟨some [some 0, some 0], some [some 1, none], none⟩,
        none, none, none, none⟩ : TrackSrc)
      ⟨some [some 0, some 0], some [some 1, none], none⟩
      rfl (Or.inr (Or.inl ⟨[some 1, none], rfl, by simp⟩)),
    rfl,
    (C7_parse_failure_amended.2 cexTrackMissingX
      ⟨none, some [some 0, some 0], none⟩ exGeomEmpty rfl (Or.inl rfl) rfl).1,
    (C7_parse_failure_amended.2 cexTrackMissingX
      ⟨none, some [some 0, some 0], none⟩ exGeomEmpty rfl (Or.inl rfl)
      rfl).2.1⟩

theorem bankingOf_zero (lX lY lZ rX rY rZ : Option (List ℝ)) (cx : List ℝ)
    (hguard : bankingGuard lZ rZ = false) :
    bankingOf lX lY lZ rX rY rZ (some cx) =
      some (List.replicate cx.length 0) := by
  unfold bankingOf
  rw [hguard]
  rfl

/-- C8 fails on the code: boundary sections whose z channel is absent get a
zero-filled elevation, so the banking loop runs and its output has the
boundary length (here 2), not the centerline length (here 3). -/
theorem C8_banking_length_counterexample :
    (loadTrackData (some cexTrackShortBounds)).map
        (fun g => (g.banking.length, g.cl_x.map List.length)) =
      some (2, some 3) ∧
    (loadTrackData (some cexTrackShortBounds)).map
        (fun g => decide (g.banking.length = (g.cl_x.getD []).length)) =
      some false :=
  ⟨rfl, rfl⟩

/-- C8 amended: banking is the all-zero sequence of centerline length exactly
when the computed elevation channels — `None` or empty or zero-filled — fail
the truthiness-and-equal-length guard; when both boundary sections carry
equal-length (possibly zero-filled) elevations, the banking loop runs and its
output has the boundary length instead. -/
theorem C8_banking_zero_amended :
    (∀ lX lY lZ rX rY rZ cx, bankingGuard lZ rZ = false →
      bankingOf lX lY lZ rX rY rZ (some cx) =
        some (List.replicate cx.length 0)) ∧
    (∀ src g cx, loadTrackData (some src) = some g → g.cl_x = some cx →
      bankingGuard g.left_z g.right_z = false →
      g.banking = List.replicate cx.length 0) := by
  constructor
  · intro lX lY lZ rX rY rZ cx hguard
    exact bankingOf_zero lX lY lZ rX rY rZ cx hguard
  · intro src g cx hload hclx hguard
    obtain ⟨cl, lb, rb, sArc, sFin, bank, h1, h2, h3, h4, h5, h6, h7⟩ :=
      loadTrackData_some_elim src g hload
    subst h7
    dsimp only at hclx hguard ⊢
    rw [hclx] at h6
    rw [bankingOf_zero lb.1 lb.2.1 lb.2.2 rb.1 rb.2.1 rb.2.2 cx hguard] at h6
    exact (Option.some.injEq _ _).mp h6.symm

/-- Witness for the amended C8 on a concrete source with no boundary data. -/
theorem C8_banking_zero_amended_witness :
    loadTrackData (some cexTrackMissingX) = some exGeomEmpty ∧
      bankingGuard exGeomEmpty.left_z exGeomEmpty.right_z = false ∧
      exGeomEmpty.banking = List.replicate (List.length ([] : List ℝ)) 0 :=
  ⟨rfl, rfl,
    C8_banking_zero_amended.2 cexTrackMissingX exGeomEmpty [] rfl rfl rfl⟩

/-- C4: for every input path of two or more (x, y) points, the curvature
sequence computed during telemetry synthesis has the same length as the path
and contains no NaN and no infinite value — every sample is a well-defined
nonnegative real obtained by dividing by a denominator clamped to the
positive floor `1e-6`, never by zero. -/
theorem C4_curvature_total (xs ys : List ℝ) (h2 : 2 ≤ xs.length) :
    (mockCurvature xs ys).length = xs.length ∧
    (∀ c ∈ mockCurvature xs ys, 0 ≤ c) ∧
    (∀ dx dy : ℝ, epsFloor ≤ curvatureDen dx dy ∧ curvatureDen dx dy ≠ 0) := by
  refine ⟨mockCurvature_length xs ys, mockCurvature_nonneg xs ys, fun dx dy => ?_⟩
  exact ⟨curvatureDen_ge dx dy, ne_of_gt (curvatureDen_pos dx dy)⟩

/-- Witness for C4 on a straight path with a repeated point. -/
theorem C4_curvature_total_witness :
    2 ≤ ([(0 : ℝ), 0, 1]).length ∧
      (mockCurvature [(0 : ℝ), 0, 1] [0, 0, 0]).length = 3 := by
  have h := C4_curvature_total [(0 : ℝ), 0, 1] [0, 0, 0] (by simp)
  exact ⟨by simp, by simpa using h.1⟩

/-- C9: every sample of the synthesized speed sequence lies in the scaled
band `[(60/3.6)*f, (300/3.6)*f]` for the label's hash factor `f`: normalized
curvature lies in `[0, 1)`, the concave interpolation stays in the band, and
the centered moving average preserves it. -/
theorem C9_speed_band (xs ys : List ℝ) (hv : ℕ) (h2 : 2 ≤ xs.length) :
    (∀ k ∈ mockKNorm xs ys, 0 ≤ k ∧ k < 1) ∧
    (∀ v ∈ mockURaw xs ys hv, minSpeedOf hv ≤ v ∧ v ≤ maxSpeedOf hv) ∧
    (∀ v ∈ mockU xs ys hv, minSpeedOf hv ≤ v ∧ v ≤ maxSpeedOf hv) :=
  ⟨mockKNorm_bounds xs ys, mockURaw_bounds xs ys hv, mockU_bounds xs ys hv⟩

/-- Witness for C9 on a concrete three-point path. -/
theorem C9_speed_band_witness :
    2 ≤ ([(0 : ℝ), 1, 2]).length ∧
      (∀ v ∈ mockU [(0 : ℝ), 1, 2] [0, 0, 0] 7,
        minSpeedOf 7 ≤ v ∧ v ≤ maxSpeedOf 7) :=
  ⟨by simp, (C9_speed_band [(0 : ℝ), 1, 2] [0, 0, 0] 7 (by simp)).2.2⟩

theorem generateMockCore_mod (xs ys : List ℝ) (h1 h2 : ℕ)
    (h : h1 % 100 = h2 % 100) :
    generateMockCore xs ys h1 = generateMockCore xs ys h2 := by
  have hu : mockURaw xs ys h1 = mockURaw xs ys h2 := by
    unfold mockURaw maxSpeedOf minSpeedOf speedFactor
    rw [h]
  have hu2 : mockU xs ys h1 = mockU xs ys h2 := by
    unfold mockU
    rw [hu]
  unfold generateMockCore mockTime
  rw [hu2]

/-- C5: the synthesizer is a pure function of the reference path and the
label's digest: two invocations on the same inputs agree exactly, and any two
labels whose SHA-256 digests agree mod 100 produce identical records — the
only label-dependent variation enters through the digest. -/
theorem C5_synthesizer_deterministic (sha : String → ℕ) (xs ys : List ℝ)
    (l1 l2 : String) (hsha : sha l1 % 100 = sha l2 % 100) :
    generateMockData sha xs ys l1 = generateMockData sha xs ys l1 ∧
    generateMockData sha xs ys l1 = generateMockData sha xs ys l2 :=
  ⟨rfl, generateMockCore_mod xs ys (sha l1) (sha l2) hsha⟩

/-- Witness for C5 with a digest function identifying two labels. -/
theorem C5_synthesizer_deterministic_witness :
    String.length ("ab") % 100 = String.length ("cd") % 100 ∧
      generateMockData String.length [(0 : ℝ), 1] [0, 1] ("ab") =
        generateMockData String.length [(0 : ℝ), 1] [0, 1] ("cd") :=
  ⟨by decide,
    (C5_synthesizer_deterministic String.length [(0 : ℝ), 1] [0, 1]
      ("ab") ("cd") (by decide)).2⟩

theorem normalizeRunData_ok_fields (rd : List (String × List ℝ)) (s : List ℝ)
    (r : TelemetryRecord) (hok : normalizeRunData rd s = Except.ok r) :
    getVar rd xAliases = some r.x ∧ getVar rd yAliases = some r.y ∧
      getVar rd uAliases = some r.u ∧ getVar rd tAliases = some r.time ∧
      r.s = s := by
  unfold normalizeRunData at hok
  rcases hx : getVar rd xAliases with _ | x <;> rw [hx] at hok
  · rcases getVar rd yAliases <;> rcases getVar rd uAliases <;>
      rcases getVar rd tAliases <;> cases hok
  · rcases hy : getVar rd yAliases with _ | y <;> rw [hy] at hok
    · rcases getVar rd uAliases <;> rcases getVar rd tAliases <;> cases hok
    · rcases hu : getVar rd uAliases with _ | u <;> rw [hu] at hok
      · rcases getVar rd tAliases <;> cases hok
      · rcases ht : getVar rd tAliases with _ | t <;> rw [ht] at hok
        · cases hok
        · cases hok
          exact ⟨rfl, rfl, rfl, rfl, rfl⟩

/-- C6 fails on the code for live calls: the live branch performs no shape
validation on the backend's channels, so a successful live `optimize` can
return a record whose x channel has one sample (violating `N ≥ 2`) and whose
time channel starts at 5 (violating `time[0] = 0`). -/
theorem C6_live_shape_counterexample :
    (FastestLapWrapper.optimize (mkWrapper true) none 400 0
        (some (cexBackend, [0, 1]))).map
      (fun r => (r.x.length, r.time.head?, r.s.length)) =
      some (1, some 5, 2) :=
  rfl

/-- C6 amended: every telemetry record returned by the synthesizer has the
canonical shape (five equal-length channels, `N ≥ 2`, arclength and time
starting at 0 and non-decreasing); a successful live optimize call performs
no shape validation — it returns exactly the backend channels resolved
through the aliases plus the independently fetched arclength — so its record
has the canonical shape only when those backend channels do. -/
theorem C6_canonical_shape_amended :
    (∀ xs ys hv, 2 ≤ xs.length → ys.length = xs.length →
      canonicalShape (generateMockCore xs ys hv)) ∧
    (∀ rd s r, normalizeRunData rd s = Except.ok r →
      getVar rd xAliases = some r.x ∧ getVar rd yAliases = some r.y ∧
        getVar rd uAliases = some r.u ∧ getVar rd tAliases = some r.time ∧
        r.s = s) := by
  refine ⟨?_, normalizeRunData_ok_fields⟩
  intro xs ys hv h2 hlen
  have h1 : 1 ≤ xs.length := le_trans (by norm_num) h2
  exact ⟨h2, hlen, mockU_length xs ys hv, mockS_length xs ys h1,
    mockTime_length xs ys hv h1, mockS_head xs ys, mockS_chain xs ys,
    mockTime_head xs ys hv, mockTime_chain xs ys hv⟩

/-- Witness for the amended C6: the synthesizer part on a concrete three-point
path, and the live passthrough part on a concrete backend response. -/
theorem C6_canonical_shape_amended_witness :
    2 ≤ ([(0 : ℝ), 1, 2]).length ∧
      canonicalShape (generateMockCore [(0 : ℝ), 1, 2] [0, 0, 0] 5) ∧
      getVar cexBackend xAliases =
        some (⟨[1], [1], [1], [5, 6], [0, 1]⟩ : TelemetryRecord).x :=
  ⟨by simp,
    C6_canonical_shape_amended.1 [(0 : ℝ), 1, 2] [0, 0, 0] 5 (by simp)
      (by simp),
    (C6_canonical_shape_amended.2 cexBackend [0, 1]
      ⟨[1], [1], [1], [5, 6], [0, 1]⟩ rfl).1⟩

/-- C10: the live bridge resolves the speed channel by probing `u`, then
`chassis.velocity.x`, then `vehicle.velocity.x`, taking the first present —
in particular an output carrying only `vehicle.velocity.x` resolves to it —
and when no alias of any required channel (x, y, speed, or time) resolves,
the call fails carrying the channels actually present. -/
theorem C10_alias_resolution (rd : List (String × List ℝ)) (s : List ℝ) :
    (∀ v, lookupChan rd ("u") = some v → getVar rd uAliases = some v) ∧
    (∀ v, lookupChan rd ("u") = none →
      lookupChan rd ("chassis.velocity.x") = some v →
      getVar rd uAliases = some v) ∧
    (∀ v, lookupChan rd ("u") = none →
      lookupChan rd ("chassis.velocity.x") = none →
      lookupChan rd ("vehicle.velocity.x") = some v →
      getVar rd uAliases = some v) ∧
    (∀ x y u t, getVar rd xAliases = some x → getVar rd yAliases = some y →
      getVar rd uAliases = some u → getVar rd tAliases = some t →
      normalizeRunData rd s = Except.ok ⟨x, y, u, t, s⟩) ∧
    ((getVar rd xAliases = none ∨ getVar rd yAliases = none ∨
      getVar rd uAliases = none ∨ getVar rd tAliases = none) →
      normalizeRunData rd s = Except.error (rd.map Prod.fst)) := by
  refine ⟨?_, ?_, ?_, ?_, ?_⟩
  · intro v hv
    simp [getVar, uAliases, hv]
  · intro v h1 h2
    simp [getVar, uAliases, h1, h2]
  · intro v h1 h2 h3
    simp [getVar, uAliases, h1, h2, h3]
  · intro x y u t hx hy hu ht
    simp [normalizeRunData, hx, hy, hu, ht]
  · intro hmiss
    unfold normalizeRunData
    rcases hmiss with h | h | h | h
    · rw [h]
    · rw [h]
      rcases getVar rd xAliases <;> rcases getVar rd uAliases <;>
        rcases getVar rd tAliases <;> rfl
    · rw [h]
      rcases getVar rd xAliases <;> rcases getVar rd yAliases <;>
        rcases getVar rd tAliases <;> rfl
    · rw [h]
      rcases getVar rd xAliases <;> rcases getVar rd yAliases <;>
        rcases getVar rd uAliases <;> rfl

/-- Witness for C10 on a backend output carrying only `vehicle.velocity.x`
as a speed alias, and on an output missing its time channel. -/
theorem C10_alias_resolution_witness :
    lookupChan [(("vehicle.velocity.x"), [(1 : ℝ), 2]), (("x"), [0, 1]),
        (("y"), [0, 1]), (("time"), [0, 1])] ("u") = none ∧
      normalizeRunData [(("vehicle.velocity.x"), [(1 : ℝ), 2]), (("x"), [0, 1]),
        (("y"), [0, 1]), (("time"), [0, 1])] [0, 1] =
      Except.ok ⟨[0, 1], [0, 1], [1, 2], [0, 1], [0, 1]⟩ ∧
      normalizeRunData [(("x"), [(0 : ℝ)]), (("y"), [0]), (("u"), [0])] [0] =
      Except.error [("x"), ("y"), ("u")] := by
  refine ⟨rfl, ?_, ?_⟩
  · exact (C10_alias_resolution [(("vehicle.velocity.x"), [(1 : ℝ), 2]),
      (("x"), [0, 1]), (("y"), [0, 1]), (("time"), [0, 1])] [0, 1]).2.2.2.1
      [0, 1] [0, 1] [1, 2] [0, 1] rfl rfl rfl rfl
  · exact (C10_alias_resolution
      [(("x"), [(0 : ℝ)]), (("y"), [0]), (("u"), [0])] [0]).2.2.2.2
      (Or.inr (Or.inr (Or.inr rfl)))

end
